import Mathlib

/-!
Shallow embedding of the observer-side (frontend) job store and WebSocket
client of the Youtube-Automation repository.

Embedded source files:
* `webapp/frontend/src/App.tsx` — the zustand store: `addAIJob`,
  `updateAIJob`, `setPipelineStatus`.
* the WebSocket hook (`useWebSocket`) — `connect` (onopen/onmessage/onclose
  handlers), `handleMessage`, `sendMessage`, with the constants
  `RECONNECT_INTERVAL = 5000` and `MAX_RECONNECT_ATTEMPTS = 10`.
* `webapp/frontend/src/components/VideoVersionGrid.tsx` — `getStatusIcon`,
  `getStatusColor`.

JavaScript specifics are modelled explicitly: optional / possibly-absent
fields become `Option`; JS string truthiness (`undefined`, `null` and `""`
are falsy) becomes `truthyStr`; object spread `{ ...job, ...updates }`
becomes a field-wise merge in which an update field that is `none` keeps the
job's value; `JSON.parse` failure becomes an `Option` parse result; side
effects (toast notifications) are returned as an explicit list.
-/

namespace YTAuto

/-- Kind of a `react-hot-toast` notification: `toast.success`, `toast.error`
or the plain `toast(...)`. -/
inductive ToastKind where
  | success
  | error
  | plain
deriving DecidableEq, Repr

/-- A toast notification: its kind and the displayed message. -/
def Toast : Type := ToastKind × String

instance : DecidableEq Toast := instDecidableEqProd

/-- JS truthiness of an optional string: `undefined` and `""` are falsy. -/
def truthyStr : Option String → Bool
  | none => false
  | some s => !s.isEmpty

/-- JS `a || d` for an optional string `a` and default `d`
(used in the `message.result?.field || 'default'` expressions). -/
def orElseStr (a : Option String) (d : String) : String :=
  match a with
  | none => d
  | some s => if s.isEmpty then d else s

/-- JS `String.prototype.includes`, via `splitOn`: `pat` occurs in `s`
iff splitting on it yields more than one piece. -/
def containsSub (s pat : String) : Bool :=
  (s.splitOn pat).length != 1

/-- Record `PipelineStatus` from `types/index.ts`. -/
structure PipelineStatus where
  active : Bool
  last_run : Option String
  videos_processed : Nat
  status : String
deriving DecidableEq, Repr

/-- A partial update to `PipelineStatus` (the `message.data` payload merged
by `setPipelineStatus` via object spread). -/
structure PipelineStatusUpdate where
  active : Option Bool := none
  last_run : Option (Option String) := none
  videos_processed : Option Nat := none
  status : Option String := none
deriving DecidableEq, Repr

/-- Operation `setPipelineStatus` from `App.tsx`:
`{ ...state.pipelineStatus, ...statusUpdates }`. -/
def mergePipelineStatus (p : PipelineStatus) (u : PipelineStatusUpdate) :
    PipelineStatus :=
  { active := u.active.getD p.active
    last_run := u.last_run.getD p.last_run
    videos_processed := u.videos_processed.getD p.videos_processed
    status := u.status.getD p.status }

/-- Record `AIJob` from `types/index.ts` (the fields the embedded operations read
or write; `status` is kept as a string exactly as the wire carries it). -/
structure AIJob where
  job_id : String
  status : String
  prompt : Option String := none
  base_prompt : String := ""
  orientation : String := ""
  duration : String := ""
  style : String := ""
  camera_view : String := ""
  background : String := ""
  started_at : String := ""
  completed_at : Option String := none
  error : Option String := none
deriving DecidableEq, Repr

/-- The `message.result` payload of an `ai_job` message: optional
generation-parameter and outcome fields, merged into job updates by
`Object.assign(updates, message.result)` and read (with defaults) when a
new job is constructed. Fields mirror the `AIJob` interface they update. -/
structure ResultPayload where
  prompt : Option String := none
  orientation : Option String := none
  duration : Option String := none
  style : Option String := none
  camera_view : Option String := none
  background : Option String := none
  completed_at : Option String := none
  error : Option String := none
deriving DecidableEq, Repr

/-- The `updates` object passed to `updateAIJob`: a `status` field plus
whatever `message.result` carried (`Object.assign(updates, message.result)`). -/
structure AIJobUpdate where
  status : Option String := none
  prompt : Option String := none
  orientation : Option String := none
  duration : Option String := none
  style : Option String := none
  camera_view : Option String := none
  background : Option String := none
  completed_at : Option String := none
  error : Option String := none
deriving DecidableEq, Repr

/-- Builds the `updates` object of the `ai_job` update branch:
`{ status: message.status }` then `Object.assign(updates, message.result)`. -/
def mkUpdates (st : String) (r : Option ResultPayload) : AIJobUpdate :=
  match r with
  | none => { status := some st }
  | some res =>
      { status := some st
        prompt := res.prompt
        orientation := res.orientation
        duration := res.duration
        style := res.style
        camera_view := res.camera_view
        background := res.background
        completed_at := res.completed_at
        error := res.error }

/-- Object spread `{ ...job, ...updates }`: each update field that is
present overrides the job's field. -/
def mergeJob (job : AIJob) (u : AIJobUpdate) : AIJob :=
  { job with
    status := u.status.getD job.status
    prompt := match u.prompt with | some p => some p | none => job.prompt
    orientation := u.orientation.getD job.orientation
    duration := u.duration.getD job.duration
    style := u.style.getD job.style
    camera_view := u.camera_view.getD job.camera_view
    background := u.background.getD job.background
    completed_at :=
      match u.completed_at with | some c => some c | none => job.completed_at
    error := match u.error with | some e => some e | none => job.error }

/-- Operation `updateAIJob` from `App.tsx`:
`aiJobs.map(job => job.job_id === jobId ? { ...job, ...updates } : job)`. -/
def updateAIJob (jobs : List AIJob) (jobId : String) (u : AIJobUpdate) :
    List AIJob :=
  jobs.map fun job => if job.job_id = jobId then mergeJob job u else job

/-- Operation `addAIJob` from `App.tsx`: `[job, ...state.aiJobs]`. -/
def addAIJob (jobs : List AIJob) (job : AIJob) : List AIJob :=
  job :: jobs

/-- The new job built by `handleMessage` when an `ai_job` message with
status `starting` names an unknown `job_id` (`now` is
`new Date().toISOString()`). -/
def mkNewJob (jid : String) (r : Option ResultPayload) (now : String) :
    AIJob :=
  { job_id := jid
    status := "starting"
    base_prompt := orElseStr (r.bind ResultPayload.prompt) ""
    prompt := some (orElseStr (r.bind ResultPayload.prompt) "")
    orientation := orElseStr (r.bind ResultPayload.orientation) "landscape"
    duration := orElseStr (r.bind ResultPayload.duration) "10s"
    style := orElseStr (r.bind ResultPayload.style) "cinematic"
    camera_view := orElseStr (r.bind ResultPayload.camera_view) "wide"
    background := orElseStr (r.bind ResultPayload.background) "natural"
    started_at := now }

/-- Record `WebSocketMessage` from `types/index.ts`; `type` is kept as a raw
string so that messages outside the declared discriminator union can be
fed to the handler. -/
structure WSMessage where
  type : String
  data : Option PipelineStatusUpdate := none
  job_id : Option String := none
  status : Option String := none
  message : Option String := none
  result : Option ResultPayload := none
deriving DecidableEq, Repr

/-- The slice of the zustand store the WebSocket handler touches. -/
structure AppState where
  pipelineStatus : PipelineStatus
  aiJobs : List AIJob
  wsConnected : Bool
deriving DecidableEq, Repr

/-- Toast chosen by the `log` branch of `handleMessage` from the message
text (substring checks on `error`/`failed`/`success`/`completed`). -/
def logToast (m : String) : Toast :=
  if containsSub m "error" || containsSub m "failed" then (ToastKind.error, m)
  else if containsSub m "success" || containsSub m "completed" then
    (ToastKind.success, m)
  else (ToastKind.plain, m)

/-- Toast kind chosen by the `ai_job` branch of `handleMessage` for a given
job status (`completed` → success, `failed`/`error` → error,
`starting` → plain, anything else → no toast). -/
def statusToastKind (st : String) : Option ToastKind :=
  if st = "completed" then some ToastKind.success
  else if st = "failed" || st = "error" then some ToastKind.error
  else if st = "starting" then some ToastKind.plain
  else none

/-- The toasts emitted by the `ai_job` branch: one when `message.message`
is truthy and the status is one of the notified ones. -/
def aiJobToasts (st : String) (m : Option String) : List Toast :=
  match m with
  | none => []
  | some txt =>
      if txt.isEmpty then []
      else
        match statusToastKind st with
        | some k => [(k, txt)]
        | none => []

/-- Operation `handleMessage` from the WebSocket hook: dispatch on `message.type`,
returning the new store state and the toasts emitted. -/
def handleMessage (msg : WSMessage) (now : String) (s : AppState) :
    AppState × List Toast :=
  if msg.type = "status" then
    match msg.data with
    | some d =>
        ({ s with pipelineStatus := mergePipelineStatus s.pipelineStatus d },
         [])
    | none => (s, [])
  else if msg.type = "log" then
    match msg.message with
    | none => (s, [])
    | some m => if m.isEmpty then (s, []) else (s, [logToast m])
  else if msg.type = "ai_job" then
    if truthyStr msg.job_id && truthyStr msg.status then
      let jid := msg.job_id.getD ""
      let st := msg.status.getD ""
      let existing := s.aiJobs.find? fun job => job.job_id = jid
      let s1 :=
        if existing.isNone && st = "starting" then
          { s with aiJobs := addAIJob s.aiJobs (mkNewJob jid msg.result now) }
        else
          { s with aiJobs := updateAIJob s.aiJobs jid (mkUpdates st msg.result) }
      (s1, aiJobToasts st msg.message)
    else (s, [])
  else (s, [])

/-- Parsing (`JSON.parse`) of an incoming frame either yields a message or throws;
the `onmessage` handler of `connect` wraps the parse in try/catch: on
failure it only logs, the handler is not invoked and the state is
untouched. -/
def onmessage (parseResult : Option WSMessage) (now : String)
    (s : AppState) : AppState × List Toast :=
  match parseResult with
  | some m => handleMessage m now s
  | none => (s, [])

/-- Constant `RECONNECT_INTERVAL` (milliseconds) from the WebSocket hook. -/
def RECONNECT_INTERVAL : Nat := 5000

/-- Constant `MAX_RECONNECT_ATTEMPTS` from the WebSocket hook. -/
def MAX_RECONNECT_ATTEMPTS : Nat := 10

/-- The mutable refs and effects of the `useWebSocket` hook that the
`onopen`/`onclose` handlers touch: the reconnect-attempt counter, the
connected flag pushed to the store, the delay of the pending scheduled
reconnect (if any), and whether the persistent-failure toast was shown. -/
structure WSClient where
  reconnectAttempts : Nat
  wsConnected : Bool
  reconnectScheduled : Option Nat
  persistentFailureToast : Bool
deriving DecidableEq, Repr

/-- The `onclose` handler of `connect`: drop the connected flag; while the
attempt counter is below `MAX_RECONNECT_ATTEMPTS`, increment it and
schedule a reconnect after `RECONNECT_INTERVAL`; otherwise show the
persistent-failure toast and schedule nothing. -/
def onclose (c : WSClient) : WSClient :=
  if c.reconnectAttempts < MAX_RECONNECT_ATTEMPTS then
    { c with
      wsConnected := false
      reconnectAttempts := c.reconnectAttempts + 1
      reconnectScheduled := some RECONNECT_INTERVAL }
  else
    { c with wsConnected := false, persistentFailureToast := true }

/-- The `onopen` handler of `connect`: set the connected flag, reset the
attempt counter to 0 and clear any pending reconnect timeout. -/
def onopen (c : WSClient) : WSClient :=
  { c with
    wsConnected := true
    reconnectAttempts := 0
    reconnectScheduled := none }

/-- Values of `WebSocket.readyState`. -/
inductive ReadyState where
  | CONNECTING
  | OPEN
  | CLOSING
  | CLOSED
deriving DecidableEq, Repr

/-- Outcome of `sendMessage`: either `ws.current.send(JSON.stringify(m))`
was called with the given message, or the message was dropped and
`console.warn` emitted. -/
inductive SendOutcome (α : Type) where
  | sent (message : α)
  | droppedWithWarning
deriving DecidableEq, Repr

/-- Operation `sendMessage` from the WebSocket hook:
`if (ws.current && ws.current.readyState === WebSocket.OPEN) send else warn`.
`sock = none` models `ws.current === null`. -/
def sendMessage {α : Type} (sock : Option ReadyState) (message : α) :
    SendOutcome α :=
  match sock with
  | some ReadyState.OPEN => SendOutcome.sent message
  | _ => SendOutcome.droppedWithWarning

/-- The lucide icon (with its class string) returned by `getStatusIcon` in
`VideoVersionGrid.tsx`. -/
inductive StatusIcon where
  | checkCircle (cls : String)
  | xCircle (cls : String)
  | refreshCw (cls : String)
  | clock (cls : String)
deriving DecidableEq, Repr

/-- Operation `getStatusIcon` from `VideoVersionGrid.tsx`. -/
def getStatusIcon (status : String) : StatusIcon :=
  if status = "completed" then
    StatusIcon.checkCircle "w-5 h-5 text-green-500"
  else if status = "failed" || status = "error" then
    StatusIcon.xCircle "w-5 h-5 text-red-500"
  else if status = "generating" then
    StatusIcon.refreshCw "w-5 h-5 text-blue-500 animate-spin"
  else StatusIcon.clock "w-5 h-5 text-yellow-500"

/-- Operation `getStatusColor` from `VideoVersionGrid.tsx`. -/
def getStatusColor (status : String) : String :=
  if status = "completed" then "bg-green-100 text-green-800"
  else if status = "failed" || status = "error" then
    "bg-red-100 text-red-800"
  else if status = "generating" then "bg-blue-100 text-blue-800"
  else "bg-yellow-100 text-yellow-800"

/-- Modelled from the spec: the GenerationJob transition edges of §4.3
(`Starting → Generating → Processing → Rendering → Completed`, any of
`Generating/Processing/Rendering → Failed` and `→ Error`). Used only to
state the transition-validity claims; no code under `src/` defines such a
relation. -/
def specAllowedEdge (fromSt toSt : String) : Bool :=
  (fromSt = "starting" && toSt = "generating") ||
  (fromSt = "generating" && toSt = "processing") ||
  (fromSt = "processing" && toSt = "rendering") ||
  (fromSt = "rendering" && toSt = "completed") ||
  ((fromSt = "generating" || fromSt = "processing" || fromSt = "rendering")
    && (toSt = "failed" || toSt = "error"))

/-- Modelled from the spec: the terminal GenerationJob states
(`Completed`, `Failed`, `Error`). -/
def specTerminal (st : String) : Bool :=
  st = "completed" || st = "failed" || st = "error"

/-- A sample job already in the terminal state `completed`. -/
def jobCompletedEx : AIJob := { job_id := "job-1", status := "completed" }

/-- A sample update requesting the status `generating`. -/
def updGeneratingEx : AIJobUpdate := { status := some "generating" }

/-- A sample store state holding only `jobCompletedEx`. -/
def stateWithCompleted : AppState :=
  { pipelineStatus :=
      { active := false, last_run := none, videos_processed := 0,
        status := "stopped" }
    aiJobs := [jobCompletedEx]
    wsConnected := true }

/-- A sample store state holding no jobs. -/
def emptyState : AppState :=
  { pipelineStatus :=
      { active := false, last_run := none, videos_processed := 0,
        status := "stopped" }
    aiJobs := []
    wsConnected := true }

/-- Merging an update never changes the job's identifier
(`AIJobUpdate` has no `job_id` field, matching the update objects the
handler builds). -/
theorem mergeJob_job_id (job : AIJob) (u : AIJobUpdate) :
    (mergeJob job u).job_id = job.job_id := rfl

/-- Merging an update whose `status` field is present sets exactly that
status. -/
theorem mergeJob_status (job : AIJob) (u : AIJobUpdate) (st : String)
    (hu : u.status = some st) : (mergeJob job u).status = st := by
  simp [mergeJob, hu]

/-- Positional description of `updateAIJob`: the element paired with each
original job is either that job (no id match) or its merged version. -/
theorem updateAIJob_zip (jobs : List AIJob) (jid : String) (u : AIJobUpdate) :
    ∀ p ∈ jobs.zip (updateAIJob jobs jid u),
      p.2 = if p.1.job_id = jid then mergeJob p.1 u else p.1 := by
  induction jobs with
  | nil => intro p hp; cases hp
  | cons j t ih =>
      intro p hp
      simp only [updateAIJob, List.map_cons, List.zip_cons_cons,
        List.mem_cons] at hp
      rcases hp with h | h
      · subst h; rfl
      · exact ih p (by simpa [updateAIJob] using h)

/-- Applying `updateAIJob` keeps the list of job identifiers unchanged. -/
theorem updateAIJob_map_job_id (jobs : List AIJob) (jid : String)
    (u : AIJobUpdate) :
    (updateAIJob jobs jid u).map AIJob.job_id = jobs.map AIJob.job_id := by
  induction jobs with
  | nil => rfl
  | cons j t ih =>
      simp only [updateAIJob, List.map_cons] at ih ⊢
      refine congrArg₂ List.cons ?_ ih
      split <;> rfl

/-- Applying `updateAIJob` keeps the length of the job list unchanged. -/
theorem updateAIJob_length (jobs : List AIJob) (jid : String)
    (u : AIJobUpdate) :
    (updateAIJob jobs jid u).length = jobs.length := by
  simp [updateAIJob]

/-- When no job carries the targeted identifier, `updateAIJob` is the
identity. -/
theorem updateAIJob_no_match (jobs : List AIJob) (jid : String)
    (u : AIJobUpdate) (h : ∀ j ∈ jobs, j.job_id ≠ jid) :
    updateAIJob jobs jid u = jobs := by
  induction jobs with
  | nil => rfl
  | cons j t ih =>
      simp only [updateAIJob, List.map_cons]
      rw [if_neg (h j (List.mem_cons_self j t))]
      exact congrArg (List.cons j) (ih fun k hk => h k (List.mem_cons_of_mem j hk))

/-- C8: frame property of `updateAIJob`: the job list keeps its length and
order, every job whose `job_id` differs from the targeted one is left
exactly unchanged (and even a matched job keeps its `job_id`), and when no
job matches the whole list is unchanged. -/
theorem updateAIJob_frame (jobs : List AIJob) (jid : String)
    (u : AIJobUpdate) :
    (updateAIJob jobs jid u).length = jobs.length
    ∧ (∀ p ∈ jobs.zip (updateAIJob jobs jid u),
        p.2.job_id = p.1.job_id ∧ (p.1.job_id ≠ jid → p.2 = p.1))
    ∧ ((∀ j ∈ jobs, j.job_id ≠ jid) → updateAIJob jobs jid u = jobs) := by
  refine ⟨updateAIJob_length jobs jid u, ?_, updateAIJob_no_match jobs jid u⟩
  intro p hp
  have h := updateAIJob_zip jobs jid u p hp
  constructor
  · rw [h]; split <;> rfl
  · intro hne
    rw [h, if_neg hne]

/-- Witness for C8 at a concrete input: updating a store whose only job has
a different identifier changes nothing. -/
theorem updateAIJob_frame_witness :
    updateAIJob [jobCompletedEx] "job-2" updGeneratingEx = [jobCompletedEx] :=
  (updateAIJob_frame [jobCompletedEx] "job-2" updGeneratingEx).2.2
    (by decide)

/-- C1 counterexample: `completed → generating` is not an allowed edge of
the spec's GenerationJob machine, yet `updateAIJob` applies it: the job's
status does not stay `completed`. -/
theorem updateAIJob_disallowed_edge_applied_cex :
    specAllowedEdge "completed" "generating" = false
    ∧ (updateAIJob [jobCompletedEx] "job-1" updGeneratingEx).map AIJob.status
        = ["generating"] := by
  refine ⟨by decide, by decide⟩

/-- C1 amended: the observer-side job-update operation performs no
transition validation; whenever the update carries a requested status, every
job whose `job_id` matches ends up with exactly that status, whether or not
the edge from its previous status is allowed. -/
theorem updateAIJob_applies_requested_status (jobs : List AIJob)
    (jid st : String) (u : AIJobUpdate) (hu : u.status = some st) :
    ∀ p ∈ jobs.zip (updateAIJob jobs jid u),
      p.1.job_id = jid → p.2.status = st := by
  intro p hp hid
  rw [updateAIJob_zip jobs jid u p hp, if_pos hid]
  exact mergeJob_status p.1 u st hu

/-- Witness for the amended C1 at a concrete input: the completed job is
moved to `generating`. -/
theorem updateAIJob_applies_requested_status_witness :
    (mergeJob jobCompletedEx updGeneratingEx).status = "generating" :=
  updateAIJob_applies_requested_status [jobCompletedEx] "job-1" "generating"
    updGeneratingEx rfl (jobCompletedEx, mergeJob jobCompletedEx updGeneratingEx)
    (by decide) rfl

/-- C2 counterexample: a job already in the terminal state `completed`
receives a further transition attempt (an `ai_job` message requesting
`generating`); the update is applied — the status becomes `generating` —
and the handler emits nothing that reports an error to anyone. -/
theorem terminal_update_not_rejected_cex :
    specTerminal jobCompletedEx.status = true
    ∧ (handleMessage
        { type := "ai_job", job_id := some "job-1",
          status := some "generating" } "t1" stateWithCompleted).1.aiJobs.map
          AIJob.status = ["generating"]
    ∧ (handleMessage
        { type := "ai_job", job_id := some "job-1",
          status := some "generating" } "t1" stateWithCompleted).2 = [] := by
  refine ⟨by decide, by decide, by decide⟩

/-- C2 amended: a transition attempt addressed to a job already in a
terminal state is not rejected: the handler applies the requested status to
that job like any other update, and (when the message carries no text) it
emits no notification at all, so nothing reports the attempt as an error. -/
theorem terminal_job_update_applied_silently (msg : WSMessage)
    (now : String) (s : AppState) (jid st : String)
    (hty : msg.type = "ai_job") (hjid : msg.job_id = some jid)
    (hjne : jid ≠ "") (hst : msg.status = some st) (hstne : st ≠ "")
    (hex : ∃ j ∈ s.aiJobs, j.job_id = jid) :
    (∀ p ∈ s.aiJobs.zip (handleMessage msg now s).1.aiJobs,
        specTerminal p.1.status = true → p.1.job_id = jid →
          p.2.status = st)
    ∧ (msg.message = none → (handleMessage msg now s).2 = []) := by
  obtain ⟨j0, hj0, hj0id⟩ := hex
  have hfind : (s.aiJobs.find? fun job => job.job_id = jid).isSome = true := by
    rw [List.find?_isSome]
    exact ⟨j0, hj0, by simp [hj0id]⟩
  have hjemp : jid.isEmpty = false := by
    cases he : jid.isEmpty
    · rfl
    · exact absurd ((String.isEmpty_iff jid).mp he) hjne
  have hsemp : st.isEmpty = false := by
    cases he : st.isEmpty
    · rfl
    · exact absurd ((String.isEmpty_iff st).mp he) hstne
  have hguard : (truthyStr (some jid) && truthyStr (some st)) = true := by
    simp [truthyStr, hjemp, hsemp]
  have hnone : (s.aiJobs.find? fun job => job.job_id = jid).isNone = false := by
    cases ho : s.aiJobs.find? fun job => job.job_id = jid with
    | none => rw [ho] at hfind; simp at hfind
    | some v => rfl
  have hcond : ¬ ((s.aiJobs.find? fun job => job.job_id = jid).isNone
      && decide (st = "starting")) = true := by
    rw [hnone]; simp
  have hbranch :
      handleMessage msg now s
        = ({ s with
              aiJobs := updateAIJob s.aiJobs jid (mkUpdates st msg.result) },
           aiJobToasts st msg.message) := by
    have h1 : ¬ msg.type = "status" := by rw [hty]; decide
    have h2 : ¬ msg.type = "log" := by rw [hty]; decide
    simp only [handleMessage, if_neg h1, if_neg h2, if_pos hty, hjid, hst,
      Option.getD_some]
    rw [if_pos hguard, if_neg hcond]
  constructor
  · intro p hp hterm hid
    rw [hbranch] at hp
    have hz := updateAIJob_zip s.aiJobs jid (mkUpdates st msg.result) p hp
    rw [hz, if_pos hid]
    refine mergeJob_status p.1 _ st ?_
    cases msg.result <;> rfl
  · intro hm
    rw [hbranch, hm]
    rfl

/-- Witness for the amended C2 at a concrete input: the terminal job in the
sample store is moved to `generating` and no notification is emitted. -/
theorem terminal_job_update_applied_silently_witness :
    ((mergeJob jobCompletedEx (mkUpdates "generating" none)).status
        = "generating")
    ∧ (handleMessage
        { type := "ai_job", job_id := some "job-1",
          status := some "generating" } "t1" stateWithCompleted).2 = [] := by
  have h := terminal_job_update_applied_silently
    { type := "ai_job", job_id := some "job-1", status := some "generating" }
    "t1" stateWithCompleted "job-1" "generating" rfl rfl (by decide) rfl
    (by decide) ⟨jobCompletedEx, by decide, rfl⟩
  refine ⟨?_, h.2 rfl⟩
  refine h.1 (jobCompletedEx, mergeJob jobCompletedEx (mkUpdates "generating" none)) ?_ (by decide) rfl
  decide

/-- C3 counterexample: the wait scheduled before the first reconnect
attempt and the wait scheduled before the second are both exactly 5000 ms,
so the backoff does not grow with the attempt number. -/
theorem reconnect_delay_constant_cex :
    (onclose
      { reconnectAttempts := 0, wsConnected := true,
        reconnectScheduled := none,
        persistentFailureToast := false }).reconnectScheduled = some 5000
    ∧ (onclose
      { reconnectAttempts := 1, wsConnected := false,
        reconnectScheduled := none,
        persistentFailureToast := false }).reconnectScheduled = some 5000 :=
  ⟨rfl, rfl⟩

/-- C3 amended: after a close the client retries with a constant 5000 ms
interval (not exponential backoff) for up to 10 consecutive attempts; once
the bound is exhausted it schedules no further attempt and shows the
persistent-failure toast; a successful open resets the attempt counter to
zero (so reconnections over the client's lifetime are unbounded). -/
theorem reconnect_policy_constant_interval (c : WSClient) :
    (c.reconnectAttempts < MAX_RECONNECT_ATTEMPTS →
      (onclose c).reconnectAttempts = c.reconnectAttempts + 1
      ∧ (onclose c).reconnectScheduled = some RECONNECT_INTERVAL
      ∧ (onclose c).persistentFailureToast = c.persistentFailureToast)
    ∧ (MAX_RECONNECT_ATTEMPTS ≤ c.reconnectAttempts →
      (onclose c).reconnectScheduled = c.reconnectScheduled
      ∧ (onclose c).reconnectAttempts = c.reconnectAttempts
      ∧ (onclose c).persistentFailureToast = true)
    ∧ (onclose c).wsConnected = false
    ∧ (onopen c).reconnectAttempts = 0
    ∧ (onopen c).wsConnected = true
    ∧ (onopen c).reconnectScheduled = none := by
  unfold onclose onopen
  refine ⟨fun h => ?_, fun h => ?_, ?_, rfl, rfl, rfl⟩
  · rw [if_pos h]
    exact ⟨rfl, rfl, rfl⟩
  · rw [if_neg (by omega)]
    exact ⟨rfl, rfl, rfl⟩
  · split <;> rfl

/-- Witness for the amended C3 at concrete clients: below the bound a 5000
ms retry is scheduled; at the bound nothing is scheduled and the toast is
shown. -/
theorem reconnect_policy_constant_interval_witness :
    (onclose
      { reconnectAttempts := 3, wsConnected := true,
        reconnectScheduled := none,
        persistentFailureToast := false }).reconnectScheduled = some 5000
    ∧ (onclose
      { reconnectAttempts := 10, wsConnected := true,
        reconnectScheduled := none,
        persistentFailureToast := false }).reconnectScheduled = none
    ∧ (onclose
      { reconnectAttempts := 10, wsConnected := true,
        reconnectScheduled := none,
        persistentFailureToast := false }).persistentFailureToast = true :=
  ⟨((reconnect_policy_constant_interval
      { reconnectAttempts := 3, wsConnected := true,
        reconnectScheduled := none,
        persistentFailureToast := false }).1 (by decide)).2.1,
   ((reconnect_policy_constant_interval
      { reconnectAttempts := 10, wsConnected := true,
        reconnectScheduled := none,
        persistentFailureToast := false }).2.1 (by decide)).1,
   ((reconnect_policy_constant_interval
      { reconnectAttempts := 10, wsConnected := true,
        reconnectScheduled := none,
        persistentFailureToast := false }).2.1 (by decide)).2.2⟩

/-- C7 counterexample: the status icon, the status color and the toast kind
produced for the status `error` are all identical to the ones produced for
the status `failed` — observers do not react differently to the two. -/
theorem error_failed_same_rendering_cex :
    getStatusIcon "error" = getStatusIcon "failed"
    ∧ getStatusColor "error" = getStatusColor "failed"
    ∧ statusToastKind "error" = statusToastKind "failed" := by
  refine ⟨by decide, by decide, by decide⟩

/-- C7 amended: observers render the two terminal failure states
identically — same icon, same color class and the same error-kind toast —
while both are rendered distinctly from `completed`. -/
theorem error_failed_rendered_identically :
    getStatusIcon "error" = getStatusIcon "failed"
    ∧ getStatusColor "error" = getStatusColor "failed"
    ∧ statusToastKind "error" = statusToastKind "failed"
    ∧ statusToastKind "error" = some ToastKind.error
    ∧ getStatusIcon "error" ≠ getStatusIcon "completed"
    ∧ getStatusColor "error" ≠ getStatusColor "completed"
    ∧ statusToastKind "completed" = some ToastKind.success := by
  refine ⟨by decide, by decide, by decide, by decide, by decide, by decide,
    by decide⟩

/-- C9: a frame whose payload fails to parse invokes no handler and leaves
the whole application state (pipeline status, job list, connection flag)
untouched, with no notification; and processing a later well-formed frame
from that state is exactly processing it from the original state. -/
theorem parse_failure_no_state_change (now later : String) (s : AppState)
    (m : WSMessage) :
    onmessage none now s = (s, [])
    ∧ onmessage (some m) later (onmessage none now s).1
        = onmessage (some m) later s :=
  ⟨rfl, rfl⟩

/-- C10: the outbound send happens exactly when a socket exists and its
`readyState` is `OPEN`; in every other state (no socket, connecting,
closing, closed) the message is dropped with a warning and the operation
returns normally. -/
theorem sendMessage_only_when_open (sock : Option ReadyState) (m : String) :
    (sock = some ReadyState.OPEN → sendMessage sock m = SendOutcome.sent m)
    ∧ (sock ≠ some ReadyState.OPEN →
        sendMessage sock m = SendOutcome.droppedWithWarning)
    ∧ (∀ p, sendMessage sock m = SendOutcome.sent p →
        sock = some ReadyState.OPEN ∧ p = m) := by
  rcases sock with _ | st
  · refine ⟨fun h => ?_, fun _ => rfl, fun p h => ?_⟩
    · cases h
    · cases h
  · cases st <;>
      refine ⟨fun h => ?_, fun h => ?_, fun p h => ?_⟩ <;>
        simp_all [sendMessage]

/-- Witness for C10 at concrete inputs: an open socket sends, a missing
socket drops. -/
theorem sendMessage_only_when_open_witness :
    sendMessage (some ReadyState.OPEN) "ping" = SendOutcome.sent "ping"
    ∧ sendMessage (none : Option ReadyState) "ping"
        = SendOutcome.droppedWithWarning :=
  ⟨(sendMessage_only_when_open (some ReadyState.OPEN) "ping").1 rfl,
   (sendMessage_only_when_open (none : Option ReadyState) "ping").2.1
     (by decide)⟩

/-- Case analysis of the job-store effect of `handleMessage`: the job list
is left unchanged, or rewritten by `updateAIJob` (targeting the message's
job id), or — only for a `starting` status naming a job id not yet in the
store — extended in front by the newly created job. -/
theorem handleMessage_aiJobs_cases (msg : WSMessage) (now : String)
    (s : AppState) :
    (handleMessage msg now s).1.aiJobs = s.aiJobs
    ∨ (handleMessage msg now s).1.aiJobs
        = updateAIJob s.aiJobs (msg.job_id.getD "")
            (mkUpdates (msg.status.getD "") msg.result)
    ∨ (msg.status = some "starting"
        ∧ (∀ k ∈ s.aiJobs, k.job_id ≠ msg.job_id.getD "")
        ∧ (handleMessage msg now s).1.aiJobs
            = mkNewJob (msg.job_id.getD "") msg.result now :: s.aiJobs) := by
  by_cases h1 : msg.type = "status"
  · left
    simp only [handleMessage, if_pos h1]
    cases msg.data <;> rfl
  by_cases h2 : msg.type = "log"
  · left
    simp only [handleMessage, if_neg h1, if_pos h2]
    rcases msg.message with _ | m
    · rfl
    · by_cases he : m.isEmpty = true <;> simp [he]
  by_cases h3 : msg.type = "ai_job"
  · simp only [handleMessage, if_neg h1, if_neg h2, if_pos h3]
    by_cases hguard :
        (truthyStr msg.job_id && truthyStr msg.status) = true
    · rw [if_pos hguard]
      by_cases hadd :
          ((s.aiJobs.find? fun job => job.job_id = msg.job_id.getD "").isNone
            && decide (msg.status.getD "" = "starting")) = true
      · right; right
        have hadd' := hadd
        rw [Bool.and_eq_true, decide_eq_true_eq] at hadd'
        refine ⟨?_, ?_, ?_⟩
        · rcases hs : msg.status with _ | st
          · rw [hs] at hguard
            simp [truthyStr] at hguard
          · have hst' := hadd'.2
            rw [hs, Option.getD_some] at hst'
            rw [hst']
        · intro k hk
          have := List.find?_eq_none.mp
            (Option.isNone_iff_eq_none.mp hadd'.1) k hk
          simpa using this
        · rw [if_pos hadd]
          rfl
      · right; left
        rw [if_neg hadd]
    · left
      rw [if_neg hguard]
  · left
    simp only [handleMessage, if_neg h1, if_neg h2, if_neg h3]

/-- C4 counterexample: a message of type `job_event` — in the claimed
discriminator set — carrying a job id and the status `starting` is not
dispatched at all (no state change, no notification), while the same
message under the code's actual type `ai_job` creates the job. -/
theorem job_event_type_unhandled_cex :
    handleMessage
      { type := "job_event", job_id := some "j1",
        status := some "starting" } "t0" emptyState = (emptyState, [])
    ∧ (handleMessage
      { type := "ai_job", job_id := some "j1",
        status := some "starting" } "t0" emptyState).1.aiJobs
        = [mkNewJob "j1" none "t0"] := by
  refine ⟨by decide, by decide⟩

/-- C4 amended: the handler dispatches on exactly the set
`{status, log, ai_job}` (the job-event discriminator is spelled `ai_job`):
a `status` message only updates the pipeline status, a `log` message
changes no store state (it only emits a notification), and a message with
any other type causes no state change and no notification. -/
theorem handler_dispatch_set_status_log_ai_job (msg : WSMessage)
    (now : String) (s : AppState) :
    (msg.type = "status" →
        (handleMessage msg now s).1.aiJobs = s.aiJobs
        ∧ (handleMessage msg now s).1.wsConnected = s.wsConnected
        ∧ (handleMessage msg now s).2 = []
        ∧ (msg.data = none → handleMessage msg now s = (s, [])))
    ∧ (msg.type = "log" → (handleMessage msg now s).1 = s)
    ∧ (msg.type ≠ "status" → msg.type ≠ "log" → msg.type ≠ "ai_job" →
        handleMessage msg now s = (s, [])) := by
  refine ⟨fun h => ?_, fun h => ?_, fun h1 h2 h3 => ?_⟩
  · simp only [handleMessage, if_pos h]
    rcases hd : msg.data with _ | d
    · exact ⟨rfl, rfl, rfl, fun _ => rfl⟩
    · exact ⟨rfl, rfl, rfl, fun hc => by cases hc⟩
  · have h1 : ¬ msg.type = "status" := by rw [h]; decide
    simp only [handleMessage, if_neg h1, if_pos h]
    rcases msg.message with _ | m
    · rfl
    · by_cases he : m.isEmpty = true <;> simp [he]
  · simp only [handleMessage, if_neg h1, if_neg h2, if_neg h3]

/-- Witness for the amended C4 at a concrete input: a message with the
unknown type `ping` changes nothing. -/
theorem handler_dispatch_set_witness :
    handleMessage { type := "ping" } "t0" stateWithCompleted
      = (stateWithCompleted, []) :=
  (handler_dispatch_set_status_log_ai_job { type := "ping" } "t0"
      stateWithCompleted).2.2 (by decide) (by decide) (by decide)

/-- C5: every job the handler adds to the store is created with status
`starting`: after any message, each stored job either carries a job id
that was already in the store or has status `starting`; and for a message
whose status is not `starting` the stored job ids are exactly the old
ones, so no new job is created. -/
theorem jobs_created_only_in_starting (msg : WSMessage) (now : String)
    (s : AppState) :
    (∀ j ∈ (handleMessage msg now s).1.aiJobs,
        j.job_id ∈ s.aiJobs.map AIJob.job_id ∨ j.status = "starting")
    ∧ (msg.status ≠ some "starting" →
        (handleMessage msg now s).1.aiJobs.map AIJob.job_id
          = s.aiJobs.map AIJob.job_id) := by
  rcases handleMessage_aiJobs_cases msg now s with h | h | ⟨hst, hnew, h⟩
  · constructor
    · intro j hj
      rw [h] at hj
      exact Or.inl (List.mem_map_of_mem _ hj)
    · intro _
      rw [h]
  · constructor
    · intro j hj
      rw [h] at hj
      left
      have hm : j.job_id ∈ (updateAIJob s.aiJobs (msg.job_id.getD "")
          (mkUpdates (msg.status.getD "") msg.result)).map AIJob.job_id :=
        List.mem_map_of_mem _ hj
      rwa [updateAIJob_map_job_id] at hm
    · intro _
      rw [h, updateAIJob_map_job_id]
  · constructor
    · intro j hj
      rw [h] at hj
      rcases List.mem_cons.mp hj with rfl | hj'
      · exact Or.inr rfl
      · exact Or.inl (List.mem_map_of_mem _ hj')
    · intro hne
      exact absurd hst hne

/-- Witness for C5 at a concrete input: a `generating` message for an
unknown job id creates nothing. -/
theorem jobs_created_only_in_starting_witness :
    (handleMessage
      { type := "ai_job", job_id := some "job-2",
        status := some "generating" } "t0"
        stateWithCompleted).1.aiJobs.map AIJob.job_id
      = stateWithCompleted.aiJobs.map AIJob.job_id :=
  (jobs_created_only_in_starting
    { type := "ai_job", job_id := some "job-2",
      status := some "generating" } "t0" stateWithCompleted).2 (by decide)

/-- C6: the handler preserves uniqueness of job ids — if the stored ids
are pairwise distinct they stay so after any message — and when some
stored job already carries the message's job id the stored id list is
unchanged, so a repeated `starting` message updates in place and never
creates a second job with the same id. -/
theorem job_ids_unique_preserved (msg : WSMessage) (now : String)
    (s : AppState) :
    ((s.aiJobs.map AIJob.job_id).Nodup →
      ((handleMessage msg now s).1.aiJobs.map AIJob.job_id).Nodup)
    ∧ ((∃ j ∈ s.aiJobs, j.job_id = msg.job_id.getD "") →
        (handleMessage msg now s).1.aiJobs.map AIJob.job_id
          = s.aiJobs.map AIJob.job_id) := by
  rcases handleMessage_aiJobs_cases msg now s with h | h | ⟨hst, hnew, h⟩
  · exact ⟨fun hn => by rwa [h], fun _ => by rw [h]⟩
  · exact ⟨fun hn => by rw [h, updateAIJob_map_job_id]; exact hn,
      fun _ => by rw [h, updateAIJob_map_job_id]⟩
  · constructor
    · intro hn
      rw [h, List.map_cons]
      refine List.nodup_cons.mpr ⟨?_, hn⟩
      intro hmem
      rcases List.mem_map.mp hmem with ⟨k, hk, hkid⟩
      exact hnew k hk hkid
    · rintro ⟨j, hj, hjid⟩
      exact absurd hjid (hnew j hj)

/-- Witness for C6 at a concrete input: a repeated `starting` message for
the already-stored id `job-1` leaves the (duplicate-free) id list exactly
as it was. -/
theorem job_ids_unique_preserved_witness :
    ((handleMessage
      { type := "ai_job", job_id := some "job-1",
        status := some "starting" } "t0"
        stateWithCompleted).1.aiJobs.map AIJob.job_id).Nodup
    ∧ (handleMessage
      { type := "ai_job", job_id := some "job-1",
        status := some "starting" } "t0"
        stateWithCompleted).1.aiJobs.map AIJob.job_id
        = stateWithCompleted.aiJobs.map AIJob.job_id :=
  ⟨(job_ids_unique_preserved
      { type := "ai_job", job_id := some "job-1",
        status := some "starting" } "t0" stateWithCompleted).1 (by decide),
   (job_ids_unique_preserved
      { type := "ai_job", job_id := some "job-1",
        status := some "starting" } "t0" stateWithCompleted).2
      ⟨jobCompletedEx, by decide, by decide⟩⟩

end YTAuto
